import Mathlib

/-
Verification of the Blackholio Go game server simulation core.

The Go source stores positions and physics quantities in float32; this
development models float32 arithmetic as exact real arithmetic (ℝ), and
float32 configuration literals as the exact decimal rationals they denote.
Masses, entity ids and player ids are uint32 in the source and are modelled
as ℕ, with an explicit `% 2 ^ 32` wherever the source can overflow.
Timestamps are modelled in microseconds (tables.Timestamp.Microseconds).
-/

namespace Blackholio

/-- Model of `types.DbVector2` (server-go/types/vector2.go): a 2D vector
with float32 components, modelled over ℝ. -/
@[ext]
structure DbVector2 where
  x : ℝ
  y : ℝ

namespace DbVector2

/-- Model of `types.Zero`. -/
def zero : DbVector2 := ⟨0, 0⟩

/-- Model of `DbVector2.Add`. -/
def add (v other : DbVector2) : DbVector2 := ⟨v.x + other.x, v.y + other.y⟩

/-- Model of `DbVector2.Sub`. -/
def sub (v other : DbVector2) : DbVector2 := ⟨v.x - other.x, v.y - other.y⟩

/-- Model of `DbVector2.Mul` (scalar multiplication). -/
def mul (v : DbVector2) (scalar : ℝ) : DbVector2 := ⟨v.x * scalar, v.y * scalar⟩

/-- Model of `DbVector2.Div`: division by zero returns the zero vector. -/
noncomputable def div (v : DbVector2) (scalar : ℝ) : DbVector2 :=
  if scalar = 0 then zero else ⟨v.x / scalar, v.y / scalar⟩

/-- Model of `DbVector2.SqrMagnitude`. -/
def sqrMagnitude (v : DbVector2) : ℝ := v.x * v.x + v.y * v.y

/-- Model of `DbVector2.Magnitude`. -/
noncomputable def magnitude (v : DbVector2) : ℝ := Real.sqrt v.sqrMagnitude

/-- Model of `DbVector2.Normalized`: the zero vector normalizes to the zero
vector instead of dividing by zero. -/
noncomputable def normalized (v : DbVector2) : DbVector2 :=
  if v.magnitude = 0 then zero else v.div v.magnitude

end DbVector2

/-- Model of `constants.START_PLAYER_MASS` (15). -/
def START_PLAYER_MASS : ℕ := 15

/-- Model of the `constants.GameConfiguration` fields the simulation core
reads.  float32 fields are modelled as the exact decimal rationals written
in the source. -/
structure GameConfiguration where
  startPlayerMass : ℕ
  startPlayerSpeed : ℕ
  minimumSafeMassRatio : ℚ
  minOverlapPctToConsume : ℚ
  minMassToSplit : ℕ
  maxCirclesPerPlayer : ℕ
  splitRecombineDelaySec : ℚ
  splitGravPullBeforeRecombineSec : ℚ
  allowedSplitCircleOverlapPct : ℚ
  selfCollisionSpeed : ℚ

/-- Model of `constants.DefaultConfiguration` / `GetGlobalConfiguration()`
with no environment overrides: the compile-time constants of the source. -/
def defaultConfiguration : GameConfiguration where
  startPlayerMass := 15
  startPlayerSpeed := 10
  minimumSafeMassRatio := 85 / 100
  minOverlapPctToConsume := 1 / 10
  minMassToSplit := 30
  maxCirclesPerPlayer := 16
  splitRecombineDelaySec := 5
  splitGravPullBeforeRecombineSec := 2
  allowedSplitCircleOverlapPct := 9 / 10
  selfCollisionSpeed := 5 / 100

/-- Model of `constants.MassToRadius`: `sqrt(mass)`. -/
noncomputable def MassToRadius (mass : ℕ) : ℝ := Real.sqrt mass

/-- Model of `constants.MassToMaxMoveSpeed`:
`2 * startSpeed / (1 + sqrt(mass / startMass))`. -/
noncomputable def MassToMaxMoveSpeed (cfg : GameConfiguration) (mass : ℕ) : ℝ :=
  2 * (cfg.startPlayerSpeed : ℝ) / (1 + Real.sqrt ((mass : ℝ) / (cfg.startPlayerMass : ℝ)))

/-- Model of `constants.GetOverlapThreshold`:
`((radiusA + radiusB) * (1 - minOverlapPctToConsume))²`. -/
def GetOverlapThreshold (cfg : GameConfiguration) (radiusA radiusB : ℝ) : ℝ :=
  let radiusSum := (radiusA + radiusB) * (1 - (cfg.minOverlapPctToConsume : ℝ))
  radiusSum * radiusSum

/-- Model of `tables.Entity`: entity id, float32 position, uint32 mass. -/
structure Entity where
  entityId : ℕ
  position : DbVector2
  mass : ℕ

/-- Model of `tables.Circle`: the circle row annotating an entity.
`lastSplitTime` is the timestamp in microseconds. -/
structure Circle where
  entityId : ℕ
  playerId : ℕ
  direction : DbVector2
  speed : ℝ
  lastSplitTime : ℕ

/-- Model of `tables.Player` (the fields the split path reads). -/
structure Player where
  identity : ℕ
  playerId : ℕ

/-- Model of `logic.IsOverlapping` (the threshold-based predicate): squared
center distance at most `((rA + rB) * (1 - minOverlapPctToConsume))²`. -/
def IsOverlapping (cfg : GameConfiguration) (a b : Entity) : Prop :=
  let dx := a.position.x - b.position.x
  let dy := a.position.y - b.position.y
  let distanceSq := dx * dx + dy * dy
  let radiusA := MassToRadius a.mass
  let radiusB := MassToRadius b.mass
  let radiusSum := (radiusA + radiusB) * (1 - (cfg.minOverlapPctToConsume : ℝ))
  distanceSq ≤ radiusSum * radiusSum

/-- Model of `logic.Clamp`: constrain a value between min and max. -/
noncomputable def Clamp (value min max : ℝ) : ℝ :=
  if value < min then min
  else if max < value then max
  else value

/-- Model of `logic.ClampPositionToWorld`: clamp each coordinate to
`[radius, worldSize - radius]`. -/
noncomputable def ClampPositionToWorld (position : DbVector2) (radius : ℝ)
    (worldSize : ℕ) : DbVector2 :=
  ⟨Clamp position.x radius ((worldSize : ℝ) - radius),
   Clamp position.y radius ((worldSize : ℝ) - radius)⟩

/-- Model of `logic.CalculateGravityPull` (src/unnamed/part_005): the
gravitational pull between two split circles of the same player.  The
hard-coded `0.05` multiplier of the source is kept as written. -/
noncomputable def CalculateGravityPull (cfg : GameConfiguration)
    (entityA entityB : Entity) (timeSinceSplit : ℝ) (circleCount : ℕ) : DbVector2 :=
  let timeBeforeRecombining := max ((cfg.splitRecombineDelaySec : ℝ) - timeSinceSplit) 0
  if (cfg.splitGravPullBeforeRecombineSec : ℝ) < timeBeforeRecombining then DbVector2.zero
  else
    let diff0 := entityA.position.sub entityB.position
    let distanceSqr0 := diff0.sqrMagnitude
    let diff := if distanceSqr0 ≤ 0.0001 then (⟨1, 0⟩ : DbVector2) else diff0
    let distanceSqr := if distanceSqr0 ≤ 0.0001 then 1 else distanceSqr0
    let radiusSum := MassToRadius entityA.mass + MassToRadius entityB.mass
    if radiusSum * radiusSum < distanceSqr then
      let gravityMultiplier :=
        1 - timeBeforeRecombining / (cfg.splitGravPullBeforeRecombineSec : ℝ)
      let distance := Real.sqrt distanceSqr
      ((((diff.normalized.mul (radiusSum - distance)).mul gravityMultiplier).mul
        0.05).div (circleCount : ℝ)).div 2
    else DbVector2.zero

/-- Model of `logic.CalculateSeparationForce` (src/unnamed/part_005): the
anti-overlap force between two split circles of the same player. -/
noncomputable def CalculateSeparationForce (cfg : GameConfiguration)
    (entityA entityB : Entity) : DbVector2 :=
  let diff0 := entityA.position.sub entityB.position
  let distanceSqr0 := diff0.sqrMagnitude
  let diff := if distanceSqr0 ≤ 0.0001 then (⟨1, 0⟩ : DbVector2) else diff0
  let distanceSqr := if distanceSqr0 ≤ 0.0001 then 1 else distanceSqr0
  let radiusSum := MassToRadius entityA.mass + MassToRadius entityB.mass
  let radiusSumMultiplied := radiusSum * (cfg.allowedSplitCircleOverlapPct : ℝ)
  if distanceSqr < radiusSumMultiplied * radiusSumMultiplied then
    let distance := Real.sqrt distanceSqr
    ((diff.normalized.mul (radiusSum - distance)).mul
      (cfg.selfCollisionSpeed : ℝ)).div 2
  else DbVector2.zero

/-- Model of the per-pair force application in `MoveAllPlayersReducer`
(server-go/reducers/blackholio.go lines 456-467): both computed forces are
summed, halved, and applied equally and oppositely to the pair. -/
noncomputable def pairForces (cfg : GameConfiguration) (entityA entityB : Entity)
    (timeSinceSplit : ℝ) (circleCount : ℕ) : DbVector2 × DbVector2 :=
  let gravityForce := CalculateGravityPull cfg entityA entityB timeSinceSplit circleCount
  let separationForce := CalculateSeparationForce cfg entityA entityB
  ((gravityForce.add separationForce).div 2,
   ((gravityForce.mul (-1)).add (separationForce.mul (-1))).div 2)

/-- Statement of claim C5 about the gravity pull, written from the spec
words: zero when `timeRemaining = max(splitRecombineDelay − timeSinceSplit,
0)` exceeds `gravityPullWindow`; otherwise, with zero-distance pairs treated
as unit-separated along a fixed axis, when the distance exceeds the radius
sum the force is attractive with magnitude `(radiusSum − distance) *
gravityMultiplier * selfCollisionSpeed / circleCount`, where
`gravityMultiplier = 1 − timeRemaining / gravityPullWindow` (distance
comparisons taken on squares, as distances are nonnegative). -/
noncomputable def gravityPullSpec (cfg : GameConfiguration)
    (entityA entityB : Entity) (timeSinceSplit : ℝ) (circleCount : ℕ) : DbVector2 :=
  let timeRemaining := max ((cfg.splitRecombineDelaySec : ℝ) - timeSinceSplit) 0
  if (cfg.splitGravPullBeforeRecombineSec : ℝ) < timeRemaining then DbVector2.zero
  else
    let diff0 := entityA.position.sub entityB.position
    let distanceSqr0 := diff0.sqrMagnitude
    let diff := if distanceSqr0 ≤ 0.0001 then (⟨1, 0⟩ : DbVector2) else diff0
    let distanceSqr := if distanceSqr0 ≤ 0.0001 then 1 else distanceSqr0
    let radiusSum := MassToRadius entityA.mass + MassToRadius entityB.mass
    if radiusSum * radiusSum < distanceSqr then
      let gravityMultiplier :=
        1 - timeRemaining / (cfg.splitGravPullBeforeRecombineSec : ℝ)
      let distance := Real.sqrt distanceSqr
      (((diff.normalized.mul (radiusSum - distance)).mul gravityMultiplier).mul
        (cfg.selfCollisionSpeed : ℝ)).div (circleCount : ℝ)
    else DbVector2.zero

/-- Statement of claim C4 about the separation contribution to the
per-tick movement vector of a circle, written from the spec words: when the squared
distance is below `(radiusSum * allowedSplitOverlapPct)²`, the contribution
to A is directed from B toward A with magnitude half of
`(radiusSum − distance) * selfCollisionSpeed`; otherwise zero. -/
noncomputable def separationContributionSpec (cfg : GameConfiguration)
    (entityA entityB : Entity) : DbVector2 :=
  let diff := entityA.position.sub entityB.position
  let distanceSqr := diff.sqrMagnitude
  let radiusSum := MassToRadius entityA.mass + MassToRadius entityB.mass
  if distanceSqr < (radiusSum * (cfg.allowedSplitCircleOverlapPct : ℝ)) ^ 2 then
    let distance := Real.sqrt distanceSqr
    (diff.normalized.mul ((radiusSum - distance) * (cfg.selfCollisionSpeed : ℝ))).div 2
  else DbVector2.zero

/-- Model of `logic.CanPlayerSplit`: below the circle cap and mass at least
`minMassToSplit * 2`. -/
def CanPlayerSplit (cfg : GameConfiguration) (entity : Entity)
    (currentCircleCount : ℕ) : Bool :=
  if cfg.maxCirclesPerPlayer ≤ currentCircleCount then false
  else decide (cfg.minMassToSplit * 2 ≤ entity.mass)

/-- Model of `logic.CalculateHalfMass`: integer floor division by two. -/
def CalculateHalfMass (originalMass : ℕ) : ℕ := originalMass / 2

/-- Model of `logic.ShouldCircleDecay`: mass strictly above the compile-time
`constants.START_PLAYER_MASS`. -/
def ShouldCircleDecay (entity : Entity) : Bool :=
  decide (START_PLAYER_MASS < entity.mass)

/-- Model of `logic.CalculateDecayedMass`: `uint32(float32(mass) * 0.99)`,
modelled as exact multiplication by 0.99 followed by truncation, which is
`mass * 99 / 100` in natural-number arithmetic. -/
def CalculateDecayedMass (originalMass : ℕ) : ℕ := originalMass * 99 / 100

/-- Modulus of uint32 arithmetic: `entity.Mass` is a Go uint32. -/
def UINT32_MOD : ℕ := 2 ^ 32

/-- Model of a `ScheduleReducer` request recorded by the host scheduler
(used for the `CircleRecombine` follow-up of `PlayerSplitReducer`). -/
structure ScheduledReducer where
  reducerName : String
  playerId : ℕ
  scheduledAtMicros : ℕ
deriving DecidableEq

/-- Modelled from the spec: the SpacetimeDB row store behind
`reducers.DatabaseContext` (the WASM host bindings in wasm.go are not under
src/; the spec describes the host as keeping Entity/Circle/Player rows keyed
by their ids and committing mutations).  `nextEntityId` is the next
host-assigned unique entity id. -/
structure DbState where
  nextEntityId : ℕ
  entities : List Entity
  circles : List Circle
  players : List Player
  scheduled : List ScheduledReducer

/-- Modelled from the spec: `DatabaseContext.GetEntity`, row lookup by
entity id. -/
def getEntity (s : DbState) (entityId : ℕ) : Option Entity :=
  s.entities.find? (fun e => e.entityId == entityId)

/-- Modelled from the spec: `DatabaseContext.GetPlayer`, row lookup by
identity. -/
def getPlayer (s : DbState) (identity : ℕ) : Option Player :=
  s.players.find? (fun p => p.identity == identity)

/-- Modelled from the spec: `DatabaseContext.GetCirclesByPlayer`. -/
def getCirclesByPlayer (s : DbState) (playerId : ℕ) : List Circle :=
  s.circles.filter (fun c => c.playerId == playerId)

/-- Modelled from the spec: `DatabaseContext.UpdateEntity`, replacing the row
with the same entity id. -/
def updateEntity (s : DbState) (e : Entity) : DbState :=
  { s with entities := s.entities.map (fun x => if x.entityId == e.entityId then e else x) }

/-- Modelled from the spec: `DatabaseContext.UpdateCircle`, replacing the row
with the same entity id. -/
def updateCircle (s : DbState) (c : Circle) : DbState :=
  { s with circles := s.circles.map (fun x => if x.entityId == c.entityId then c else x) }

/-- Modelled from the spec: `DatabaseContext.InsertEntity` with host-assigned
unique id (`NewEntity(0, ...)` rows get `nextEntityId` on insert). -/
def insertEntity (s : DbState) (e : Entity) : DbState :=
  { s with nextEntityId := s.nextEntityId + 1
           entities := s.entities ++ [{ e with entityId := s.nextEntityId }] }

/-- Modelled from the spec: `DatabaseContext.InsertCircle`. -/
def insertCircle (s : DbState) (c : Circle) : DbState :=
  { s with circles := s.circles ++ [c] }

/-- Modelled from the spec: destroying an entity removes its Circle row and
its Entity row (`logic.DestroyEntity` via `DatabaseContext.DeleteEntity`;
spec 4.6: dependents are removed no later than their Entity). -/
def deleteEntity (s : DbState) (entityId : ℕ) : DbState :=
  { s with entities := s.entities.filter (fun e => !(e.entityId == entityId))
           circles := s.circles.filter (fun c => !(c.entityId == entityId)) }

/-- Modelled from the spec: `DatabaseContext.ScheduleReducer` records a
scheduled follow-up event with the host. -/
def scheduleReducer (s : DbState) (ev : ScheduledReducer) : DbState :=
  { s with scheduled := s.scheduled ++ [ev] }

/-- Model of `reducers.ReducerResult`: a reducer invocation terminates with
either `SuccessResult` or an `ErrorResult` value carrying a message; the Go
code has no panicking path, so the model is a total function into this type. -/
inductive ReducerResult where
  | success : ReducerResult
  | error : String → ReducerResult
deriving DecidableEq

/-- Model of `reducers.ConsumeEntityArgs`. -/
structure ConsumeEntityArgs where
  consumerEntityId : ℕ
  consumedEntityId : ℕ

/-- Model of `reducers.ConsumeEntityReducer` (blackholio.go lines 685-719):
look up the consumed then the consumer entity, returning an `ErrorResult`
and leaving the state untouched if either is missing; otherwise add the
consumed mass to the consumer (uint32 addition, hence `% 2^32`), destroy the
consumed entity and update the consumer row. -/
def ConsumeEntityReducer (s : DbState) (args : ConsumeEntityArgs) :
    ReducerResult × DbState :=
  match getEntity s args.consumedEntityId with
  | none => (.error "Consumed entity does not exist", s)
  | some consumedEntity =>
    match getEntity s args.consumerEntityId with
    | none => (.error "Consumer entity does not exist", s)
    | some consumerEntity =>
      let consumerEntity :=
        { consumerEntity with
          mass := (consumerEntity.mass + consumedEntity.mass) % UINT32_MOD }
      let s1 := deleteEntity s consumedEntity.entityId
      let s2 := updateEntity s1 consumerEntity
      (.success, s2)

/-- Model of `logic.SpawnCircleAt`: a new entity (id assigned on insert) at
the given position with the given mass, and its circle row with default
direction up, speed 0 and `lastSplitTime` stamped now. -/
def SpawnCircleAt (playerId mass : ℕ) (position : DbVector2)
    (timestampMicros : ℕ) : Entity × Circle :=
  let entity : Entity := ⟨0, position, mass⟩
  let circle : Circle := ⟨entity.entityId, playerId, ⟨0, 1⟩, 0, timestampMicros⟩
  (entity, circle)

/-- Accumulator of the split loop of `PlayerSplitReducer`: current database
state, the running circle count of the player, and whether the loop has hit the
circle cap and broken out. -/
structure SplitLoopAcc where
  state : DbState
  circleCount : ℕ
  stop : Bool

/-- Model of the body of the split loop of `PlayerSplitReducer`
(blackholio.go lines 321-367): if the entity of the circle exists and is eligible,
spawn a half-mass circle one direction-vector away (the new rows receiving
the host-assigned entity id), reduce the original mass by the same half,
stamp `lastSplitTime` on the original circle, and break out once the circle
cap is reached. -/
def splitCircleStep (cfg : GameConfiguration) (playerId timestampMicros : ℕ)
    (acc : SplitLoopAcc) (circle : Circle) : SplitLoopAcc :=
  if acc.stop then acc
  else
    match getEntity acc.state circle.entityId with
    | none => acc
    | some entity =>
      if CanPlayerSplit cfg entity acc.circleCount then
        let halfMass := CalculateHalfMass entity.mass
        let newPosition := entity.position.add circle.direction
        let spawned := SpawnCircleAt playerId halfMass newPosition timestampMicros
        let newId := acc.state.nextEntityId
        let s1 := insertEntity acc.state spawned.1
        let s2 := insertCircle s1 { spawned.2 with entityId := newId }
        let entity2 := { entity with mass := entity.mass - halfMass }
        let circle2 := { circle with lastSplitTime := timestampMicros }
        let s3 := updateEntity s2 entity2
        let s4 := updateCircle s3 circle2
        let newCount := acc.circleCount + 1
        ⟨s4, newCount, decide (cfg.maxCirclesPerPlayer ≤ newCount)⟩
      else acc

/-- Model of `time.Duration(config.SplitRecombineDelaySec) * time.Second` in
microseconds: Go truncates the float32 seconds toward zero. -/
def recombineDelayMicros (cfg : GameConfiguration) : ℕ :=
  cfg.splitRecombineDelaySec.floor.toNat * 1000000

/-- Model of `reducers.PlayerSplitReducer` (blackholio.go lines 296-385):
error if the sender has no player row; success without further work at the
circle cap; otherwise attempt to split every circle and unconditionally
schedule a `CircleRecombine` event `splitRecombineDelaySec` later. -/
def PlayerSplitReducer (cfg : GameConfiguration) (s : DbState)
    (sender timestampMicros : ℕ) : ReducerResult × DbState :=
  match getPlayer s sender with
  | none => (.error "Player not found", s)
  | some player =>
    let circles := getCirclesByPlayer s player.playerId
    let circleCount := circles.length
    if cfg.maxCirclesPerPlayer ≤ circleCount then (.success, s)
    else
      let acc := circles.foldl (splitCircleStep cfg player.playerId timestampMicros)
        ⟨s, circleCount, false⟩
      let recombineAtMicros := timestampMicros + recombineDelayMicros cfg
      let s2 := scheduleReducer acc.state
        ⟨"CircleRecombine", player.playerId, recombineAtMicros⟩
      (.success, s2)

/-- Model of the body of the decay loop of `CircleDecayReducer`
(blackholio.go lines 598-613): look up the entity of the circle and, if it should
decay, replace its mass by the decayed mass. -/
def decayCircleStep (s : DbState) (circle : Circle) : DbState :=
  match getEntity s circle.entityId with
  | none => s
  | some entity =>
    if ShouldCircleDecay entity then
      updateEntity s { entity with mass := CalculateDecayedMass entity.mass }
    else s

/-- Model of `reducers.CircleDecayReducer`: apply the decay step to every
circle. -/
def CircleDecayReducer (s : DbState) : ReducerResult × DbState :=
  (.success, s.circles.foldl decayCircleStep s)

/-
Helper lemmas (shared across claims).
-/

lemma DbVector2.zero_div (c : ℝ) : DbVector2.zero.div c = DbVector2.zero := by
  unfold DbVector2.div DbVector2.zero
  split <;> simp

lemma DbVector2.mul_mul (v : DbVector2) (a b : ℝ) :
    (v.mul a).mul b = v.mul (a * b) := by
  unfold DbVector2.mul
  ext <;> ring

lemma DbVector2.zero_add (v : DbVector2) : DbVector2.zero.add v = v := by
  unfold DbVector2.add DbVector2.zero
  ext <;> simp

lemma sqrt_nat_sq (a : ℝ) (b : ℝ) (hb : 0 ≤ b) (h : a = b ^ 2) :
    Real.sqrt a = b := by
  rw [h]
  exact Real.sqrt_sq hb

lemma MassToRadius_25 : MassToRadius 25 = 5 := by
  unfold MassToRadius
  exact sqrt_nat_sq _ _ (by norm_num) (by norm_num)

lemma MassToRadius_16 : MassToRadius 16 = 4 := by
  unfold MassToRadius
  exact sqrt_nat_sq _ _ (by norm_num) (by norm_num)

lemma MassToRadius_4 : MassToRadius 4 = 2 := by
  unfold MassToRadius
  exact sqrt_nat_sq _ _ (by norm_num) (by norm_num)

lemma DbVector2.normalized_eval (a b r : ℝ) (hr : 0 < r) (h : a * a + b * b = r ^ 2) :
    (DbVector2.mk a b).normalized = ⟨a / r, b / r⟩ := by
  have hmag : (DbVector2.mk a b).magnitude = r := by
    unfold DbVector2.magnitude DbVector2.sqrMagnitude
    dsimp only
    rw [h]
    exact Real.sqrt_sq hr.le
  unfold DbVector2.normalized
  rw [hmag, if_neg (ne_of_gt hr)]
  unfold DbVector2.div
  rw [if_neg (ne_of_gt hr)]

lemma DbVector2.neg_add_halved (g s : DbVector2) :
    ((g.mul (-1)).add (s.mul (-1))).div 2 = ((g.add s).div 2).mul (-1) := by
  have h2 : ((2:ℝ) = 0) = False := by norm_num
  simp only [DbVector2.mul, DbVector2.add, DbVector2.div, h2, if_false, DbVector2.mk.injEq]
  constructor <;> ring

lemma default_delay_cast : ((defaultConfiguration.splitRecombineDelaySec : ℚ) : ℝ) = 5 := by
  norm_num [defaultConfiguration]

lemma default_window_cast :
    ((defaultConfiguration.splitGravPullBeforeRecombineSec : ℚ) : ℝ) = 2 := by
  norm_num [defaultConfiguration]

lemma default_speed_cast : ((defaultConfiguration.selfCollisionSpeed : ℚ) : ℝ) = 0.05 := by
  norm_num [defaultConfiguration]

lemma default_overlap_cast :
    ((defaultConfiguration.allowedSplitCircleOverlapPct : ℚ) : ℝ) = 0.9 := by
  norm_num [defaultConfiguration]

lemma gravity_zero_early (a b : Entity) (n : ℕ) :
    CalculateGravityPull defaultConfiguration a b 0 n = DbVector2.zero := by
  simp only [CalculateGravityPull, default_delay_cast, default_window_cast]
  rw [if_pos]
  rw [show max ((5:ℝ) - 0) 0 = 5 by rw [max_eq_left] <;> norm_num]
  norm_num

lemma gravity_eval_code :
    CalculateGravityPull defaultConfiguration ⟨1, ⟨0, 0⟩, 4⟩ ⟨2, ⟨5, 0⟩, 4⟩ 4 2
      = ⟨0.00625, 0⟩ := by
  have hnorm : (DbVector2.mk (-5) 0).normalized = ⟨-1, 0⟩ := by
    rw [DbVector2.normalized_eval (-5) 0 5 (by norm_num) (by norm_num)]
    norm_num
  have h25 : Real.sqrt 25 = 5 := sqrt_nat_sq _ _ (by norm_num) (by norm_num)
  simp only [CalculateGravityPull, DbVector2.sub, DbVector2.sqrMagnitude,
    default_delay_cast, default_window_cast, MassToRadius_4]
  norm_num
  rw [hnorm, h25]
  simp only [DbVector2.mul, DbVector2.div]
  norm_num

lemma gravity_eval_spec :
    gravityPullSpec defaultConfiguration ⟨1, ⟨0, 0⟩, 4⟩ ⟨2, ⟨5, 0⟩, 4⟩ 4 2
      = ⟨0.0125, 0⟩ := by
  have hnorm : (DbVector2.mk (-5) 0).normalized = ⟨-1, 0⟩ := by
    rw [DbVector2.normalized_eval (-5) 0 5 (by norm_num) (by norm_num)]
    norm_num
  have h25 : Real.sqrt 25 = 5 := sqrt_nat_sq _ _ (by norm_num) (by norm_num)
  simp only [gravityPullSpec, DbVector2.sub, DbVector2.sqrMagnitude,
    default_delay_cast, default_window_cast, default_speed_cast, MassToRadius_4]
  norm_num
  rw [hnorm, h25]
  simp only [DbVector2.mul, DbVector2.div]
  norm_num

lemma separation_eval_code :
    CalculateSeparationForce defaultConfiguration ⟨1, ⟨0, 0⟩, 16⟩ ⟨2, ⟨3, 0⟩, 16⟩
      = ⟨-0.125, 0⟩ := by
  have hnorm : (DbVector2.mk (-3) 0).normalized = ⟨-1, 0⟩ := by
    rw [DbVector2.normalized_eval (-3) 0 3 (by norm_num) (by norm_num)]
    norm_num
  have h9 : Real.sqrt 9 = 3 := sqrt_nat_sq _ _ (by norm_num) (by norm_num)
  simp only [CalculateSeparationForce, DbVector2.sub, DbVector2.sqrMagnitude,
    default_speed_cast, default_overlap_cast, MassToRadius_16]
  norm_num
  rw [hnorm, h9]
  simp only [DbVector2.mul, DbVector2.div]
  norm_num

lemma separation_eval_spec :
    separationContributionSpec defaultConfiguration ⟨1, ⟨0, 0⟩, 16⟩ ⟨2, ⟨3, 0⟩, 16⟩
      = ⟨-0.125, 0⟩ := by
  have hnorm : (DbVector2.mk (-3) 0).normalized = ⟨-1, 0⟩ := by
    rw [DbVector2.normalized_eval (-3) 0 3 (by norm_num) (by norm_num)]
    norm_num
  have h9 : Real.sqrt 9 = 3 := sqrt_nat_sq _ _ (by norm_num) (by norm_num)
  simp only [separationContributionSpec, DbVector2.sub, DbVector2.sqrMagnitude,
    default_speed_cast, default_overlap_cast, MassToRadius_16]
  norm_num
  rw [hnorm, h9]
  simp only [DbVector2.mul, DbVector2.div]
  norm_num

lemma find?_entityId_map_replace (l : List Entity) (e2 : Entity) :
    (l.map (fun x => if x.entityId == e2.entityId then e2 else x)).find?
        (fun x => x.entityId == e2.entityId)
      = (l.find? (fun x => x.entityId == e2.entityId)).map (fun _ => e2) := by
  induction l with
  | nil => rfl
  | cons x l ih =>
    simp only [List.map_cons]
    by_cases hx : x.entityId = e2.entityId
    · rw [if_pos (by simpa using hx)]
      rw [List.find?_cons_of_pos _ (by simp), List.find?_cons_of_pos _ (by simpa using hx)]
      rfl
    · rw [if_neg (by simpa using hx)]
      rw [List.find?_cons_of_neg _ (by simpa using hx),
        List.find?_cons_of_neg _ (by simpa using hx), ih]

lemma find?_entityId_map_replace_ne (l : List Entity) (e2 : Entity) (tid : ℕ)
    (hne : tid ≠ e2.entityId) :
    (l.map (fun x => if x.entityId == e2.entityId then e2 else x)).find?
        (fun x => x.entityId == tid)
      = l.find? (fun x => x.entityId == tid) := by
  induction l with
  | nil => rfl
  | cons x l ih =>
    simp only [List.map_cons]
    by_cases hx : x.entityId = e2.entityId
    · rw [if_pos (by simpa using hx)]
      rw [List.find?_cons_of_neg _ (by simpa using Ne.symm hne),
        List.find?_cons_of_neg _ (by simp [hx]; exact Ne.symm hne), ih]
    · rw [if_neg (by simpa using hx)]
      by_cases hxt : x.entityId = tid
      · rw [List.find?_cons_of_pos _ (by simpa using hxt),
          List.find?_cons_of_pos _ (by simpa using hxt)]
      · rw [List.find?_cons_of_neg _ (by simpa using hxt),
          List.find?_cons_of_neg _ (by simpa using hxt), ih]

lemma find?_entityId_filter_out (l : List Entity) (did : ℕ) :
    (l.filter (fun e => !(e.entityId == did))).find? (fun e => e.entityId == did)
      = none := by
  rw [List.find?_eq_none]
  intro x hx
  have := (List.mem_filter.mp hx).2
  simpa using this

lemma find?_entityId_filter_other (l : List Entity) (did tid : ℕ) (h : tid ≠ did) :
    (l.filter (fun e => !(e.entityId == did))).find? (fun e => e.entityId == tid)
      = l.find? (fun e => e.entityId == tid) := by
  induction l with
  | nil => rfl
  | cons x l ih =>
    by_cases hxd : x.entityId = did
    · rw [List.filter_cons_of_neg (by simpa using hxd)]
      rw [List.find?_cons_of_neg _ (by simp [hxd]; exact Ne.symm h), ih]
    · rw [List.filter_cons_of_pos (by simpa using hxd)]
      by_cases hxt : x.entityId = tid
      · rw [List.find?_cons_of_pos _ (by simpa using hxt),
          List.find?_cons_of_pos _ (by simpa using hxt)]
      · rw [List.find?_cons_of_neg _ (by simpa using hxt),
          List.find?_cons_of_neg _ (by simpa using hxt), ih]

lemma getEntity_eq_some_id (s : DbState) (i : ℕ) (e : Entity)
    (h : getEntity s i = some e) : e.entityId = i := by
  unfold getEntity at h
  have := List.find?_some h
  simpa using this

lemma mem_of_getEntity_eq_some (s : DbState) (i : ℕ) (e : Entity)
    (h : getEntity s i = some e) : e ∈ s.entities := by
  unfold getEntity at h
  exact List.mem_of_find?_eq_some h

lemma getEntity_updateEntity_self (s : DbState) (e2 : Entity) :
    getEntity (updateEntity s e2) e2.entityId
      = (getEntity s e2.entityId).map (fun _ => e2) := by
  unfold getEntity updateEntity
  exact find?_entityId_map_replace s.entities e2

lemma getEntity_updateEntity_other (s : DbState) (e2 : Entity) (tid : ℕ)
    (h : tid ≠ e2.entityId) :
    getEntity (updateEntity s e2) tid = getEntity s tid := by
  unfold getEntity updateEntity
  exact find?_entityId_map_replace_ne s.entities e2 tid h

lemma getEntity_deleteEntity_self (s : DbState) (did : ℕ) :
    getEntity (deleteEntity s did) did = none := by
  unfold getEntity deleteEntity
  exact find?_entityId_filter_out s.entities did

lemma getEntity_deleteEntity_other (s : DbState) (did tid : ℕ) (h : tid ≠ did) :
    getEntity (deleteEntity s did) tid = getEntity s tid := by
  unfold getEntity deleteEntity
  exact find?_entityId_filter_other s.entities did tid h

lemma getEntity_insertEntity_fresh (s : DbState) (e : Entity)
    (hfresh : ∀ x ∈ s.entities, x.entityId ≠ s.nextEntityId) :
    getEntity (insertEntity s e) s.nextEntityId
      = some { e with entityId := s.nextEntityId } := by
  unfold getEntity insertEntity
  rw [List.find?_append]
  have h1 : s.entities.find? (fun x => x.entityId == s.nextEntityId) = none := by
    rw [List.find?_eq_none]
    intro x hx
    simpa using hfresh x hx
  rw [h1]
  simp

lemma getEntity_insertEntity_other (s : DbState) (e : Entity) (tid : ℕ)
    (h : tid ≠ s.nextEntityId) :
    getEntity (insertEntity s e) tid = getEntity s tid := by
  unfold getEntity insertEntity
  rw [List.find?_append]
  have h2 : [({ e with entityId := s.nextEntityId } : Entity)].find?
      (fun x => x.entityId == tid) = none := by
    rw [List.find?_eq_none]
    intro x hx
    simp only [List.mem_singleton] at hx
    subst hx
    simpa using Ne.symm h
  rw [h2]
  cases s.entities.find? (fun x => x.entityId == tid) <;> rfl

lemma getEntity_insertCircle (s : DbState) (c : Circle) (tid : ℕ) :
    getEntity (insertCircle s c) tid = getEntity s tid := rfl

lemma getEntity_updateCircle (s : DbState) (c : Circle) (tid : ℕ) :
    getEntity (updateCircle s c) tid = getEntity s tid := rfl

lemma splitCircleStep_scheduled (cfg : GameConfiguration) (pid ts : ℕ)
    (acc : SplitLoopAcc) (c : Circle) :
    (splitCircleStep cfg pid ts acc c).state.scheduled = acc.state.scheduled := by
  unfold splitCircleStep
  split
  · rfl
  · split
    · rfl
    · split
      · rfl
      · rfl

lemma foldl_splitCircleStep_scheduled (cfg : GameConfiguration) (pid ts : ℕ)
    (cs : List Circle) (acc : SplitLoopAcc) :
    (cs.foldl (splitCircleStep cfg pid ts) acc).state.scheduled
      = acc.state.scheduled := by
  induction cs generalizing acc with
  | nil => rfl
  | cons c cs ih => rw [List.foldl_cons, ih, splitCircleStep_scheduled]

/-
Claim theorems.
-/

/-- C6: `IsOverlapping(a, b)` holds iff the squared distance between the
centers is at most `GetOverlapThreshold(radius(a), radius(b))`; and in the
concrete scenario of two mass-25 entities (radius 5) placed 10 units apart
under the default configuration (`minOverlapPctToConsume = 0.1`), the
threshold is 81, the squared distance is 100, and they do not overlap. -/
theorem is_overlapping_threshold_spec :
    (∀ (cfg : GameConfiguration) (a b : Entity), IsOverlapping cfg a b ↔
      (a.position.x - b.position.x) * (a.position.x - b.position.x) +
        (a.position.y - b.position.y) * (a.position.y - b.position.y) ≤
          GetOverlapThreshold cfg (MassToRadius a.mass) (MassToRadius b.mass))
  ∧ ¬ IsOverlapping defaultConfiguration ⟨1, ⟨0, 0⟩, 25⟩ ⟨2, ⟨10, 0⟩, 25⟩ := by
  constructor
  · intro cfg a b
    exact Iff.rfl
  · intro h
    simp only [IsOverlapping, defaultConfiguration, MassToRadius_25] at h
    norm_num at h

/-- C8: one application of the decay step leaves every entity with mass at
or below the start mass untouched; for mass strictly above the start mass it
replaces the mass by the truncation of `mass * 0.99`, which is strictly
smaller than the old mass and never below the start mass. -/
theorem decay_step_spec :
    (∀ (s : DbState) (c : Circle) (e : Entity),
        getEntity s c.entityId = some e → e.mass ≤ START_PLAYER_MASS →
          decayCircleStep s c = s)
  ∧ (∀ e : Entity, START_PLAYER_MASS < e.mass →
        ShouldCircleDecay e = true
      ∧ CalculateDecayedMass e.mass = ⌊(e.mass : ℝ) * 0.99⌋₊
      ∧ CalculateDecayedMass e.mass < e.mass
      ∧ START_PLAYER_MASS ≤ CalculateDecayedMass e.mass) := by
  constructor
  · intro s c e hget hle
    have hdec : ShouldCircleDecay e = false := by
      simp only [ShouldCircleDecay, decide_eq_false_iff_not, not_lt]
      exact hle
    simp only [decayCircleStep, hget, hdec]
    simp
  · intro e hlt
    have h15 : START_PLAYER_MASS = 15 := rfl
    refine ⟨by simp only [ShouldCircleDecay, decide_eq_true_eq]; exact hlt, ?_, ?_, ?_⟩
    · unfold CalculateDecayedMass
      have hcast : (e.mass : ℝ) * 0.99 = ((e.mass * 99 : ℕ) : ℝ) / (100 : ℕ) := by
        push_cast
        ring
      rw [hcast, Nat.floor_div_nat, Nat.floor_natCast]
    · unfold CalculateDecayedMass
      rw [Nat.div_lt_iff_lt_mul (by norm_num : (0:ℕ) < 100)]
      rw [h15] at hlt
      omega
    · unfold CalculateDecayedMass
      rw [h15] at hlt ⊢
      rw [Nat.le_div_iff_mul_le (by norm_num : (0:ℕ) < 100)]
      omega

/-- C8 witness: a mass-15 entity is untouched by the decay step, and a
mass-16 entity decays to 15 (strictly smaller, not below the start mass). -/
theorem decay_step_spec_witness :
    decayCircleStep ⟨2, [⟨1, ⟨0, 0⟩, 15⟩], [⟨1, 3, ⟨0, 1⟩, 0, 0⟩], [], []⟩
        ⟨1, 3, ⟨0, 1⟩, 0, 0⟩
      = ⟨2, [⟨1, ⟨0, 0⟩, 15⟩], [⟨1, 3, ⟨0, 1⟩, 0, 0⟩], [], []⟩
  ∧ (ShouldCircleDecay ⟨1, ⟨0, 0⟩, 16⟩ = true
      ∧ CalculateDecayedMass 16 = ⌊((16 : ℕ) : ℝ) * 0.99⌋₊
      ∧ CalculateDecayedMass 16 < 16
      ∧ START_PLAYER_MASS ≤ CalculateDecayedMass 16) :=
  ⟨decay_step_spec.1 ⟨2, [⟨1, ⟨0, 0⟩, 15⟩], [⟨1, 3, ⟨0, 1⟩, 0, 0⟩], [], []⟩
      ⟨1, 3, ⟨0, 1⟩, 0, 0⟩ ⟨1, ⟨0, 0⟩, 15⟩ rfl (by decide),
   decay_step_spec.2 ⟨1, ⟨0, 0⟩, 16⟩ (by decide)⟩

/-- C9: for positive configured start mass and start speed,
`MassToMaxMoveSpeed(startMass)` equals `startSpeed`, and the speed is
strictly decreasing in mass. -/
theorem mass_to_max_move_speed_spec (cfg : GameConfiguration)
    (hm : 0 < cfg.startPlayerMass) (hs : 0 < cfg.startPlayerSpeed) :
    MassToMaxMoveSpeed cfg cfg.startPlayerMass = (cfg.startPlayerSpeed : ℝ)
  ∧ ∀ m1 m2 : ℕ, m1 < m2 →
      MassToMaxMoveSpeed cfg m2 < MassToMaxMoveSpeed cfg m1 := by
  have hmR : (0:ℝ) < (cfg.startPlayerMass : ℝ) := by exact_mod_cast hm
  have hsR : (0:ℝ) < (cfg.startPlayerSpeed : ℝ) := by exact_mod_cast hs
  constructor
  · unfold MassToMaxMoveSpeed
    rw [div_self (ne_of_gt hmR), Real.sqrt_one]
    norm_num
  · intro m1 m2 h12
    unfold MassToMaxMoveSpeed
    have hlt : Real.sqrt ((m1 : ℝ) / (cfg.startPlayerMass : ℝ)) <
        Real.sqrt ((m2 : ℝ) / (cfg.startPlayerMass : ℝ)) := by
      apply Real.sqrt_lt_sqrt (by positivity)
      rw [div_lt_div_iff_of_pos_right hmR]
      exact_mod_cast h12
    have h1 : (0:ℝ) < 1 + Real.sqrt ((m1 : ℝ) / (cfg.startPlayerMass : ℝ)) := by
      positivity
    exact div_lt_div_of_pos_left (by positivity) h1 (by linarith)

/-- C9 witness: at the default configuration (start mass 15, start speed
10), the speed at mass 15 is 10, and mass 60 moves strictly slower than
mass 15. -/
theorem mass_to_max_move_speed_spec_witness :
    MassToMaxMoveSpeed defaultConfiguration 15 = (10 : ℝ)
  ∧ MassToMaxMoveSpeed defaultConfiguration 60 < MassToMaxMoveSpeed defaultConfiguration 15 :=
  ⟨(mass_to_max_move_speed_spec defaultConfiguration (by decide) (by decide)).1,
   (mass_to_max_move_speed_spec defaultConfiguration (by decide) (by decide)).2
     15 60 (by norm_num)⟩

/-- C7 counterexample: with radius 10 and world size 5 the target interval
`[radius, worldSize - radius] = [10, -5]` is empty, and
`ClampPositionToWorld((0,0), 10, 5)` returns x-coordinate 10, which is not
at most `worldSize - radius = -5`; so the claim fails for this radius and
world size. -/
theorem clamp_position_empty_interval_counterexample :
    ¬ ((ClampPositionToWorld ⟨0, 0⟩ 10 5).x ≤ ((5 : ℕ) : ℝ) - 10) := by
  have hx : (ClampPositionToWorld ⟨0, 0⟩ 10 5).x = 10 := by
    show Clamp 0 10 (((5 : ℕ) : ℝ) - 10) = 10
    unfold Clamp
    norm_num
  rw [hx]
  norm_num

/-- C7 (amended): whenever `radius ≤ worldSize - radius` (the target
interval is nonempty), both coordinates of `ClampPositionToWorld` lie within
`[radius, worldSize - radius]` for every real input position. -/
theorem clamp_position_in_bounds (position : DbVector2) (radius : ℝ)
    (worldSize : ℕ) (h : radius ≤ (worldSize : ℝ) - radius) :
    radius ≤ (ClampPositionToWorld position radius worldSize).x
  ∧ (ClampPositionToWorld position radius worldSize).x ≤ (worldSize : ℝ) - radius
  ∧ radius ≤ (ClampPositionToWorld position radius worldSize).y
  ∧ (ClampPositionToWorld position radius worldSize).y ≤ (worldSize : ℝ) - radius := by
  have hc : ∀ v : ℝ, radius ≤ Clamp v radius ((worldSize : ℝ) - radius)
      ∧ Clamp v radius ((worldSize : ℝ) - radius) ≤ (worldSize : ℝ) - radius := by
    intro v
    unfold Clamp
    split_ifs with h1 h2
    · exact ⟨le_refl _, h⟩
    · exact ⟨h, le_refl _⟩
    · exact ⟨le_of_not_lt h1, le_of_not_lt h2⟩
  exact ⟨(hc position.x).1, (hc position.x).2, (hc position.y).1, (hc position.y).2⟩

/-- C7 witness: with radius 1 and world size 10 the clamped position of the
far out-of-range input `(-50, 99)` lies within `[1, 9]` on both axes. -/
theorem clamp_position_in_bounds_witness :
    (1 : ℝ) ≤ (ClampPositionToWorld ⟨-50, 99⟩ 1 10).x
  ∧ (ClampPositionToWorld ⟨-50, 99⟩ 1 10).x ≤ ((10 : ℕ) : ℝ) - 1
  ∧ (1 : ℝ) ≤ (ClampPositionToWorld ⟨-50, 99⟩ 1 10).y
  ∧ (ClampPositionToWorld ⟨-50, 99⟩ 1 10).y ≤ ((10 : ℕ) : ℝ) - 1 :=
  clamp_position_in_bounds ⟨-50, 99⟩ 1 10 (by norm_num)

/-- C2: a `ConsumeEntity` invocation whose consumed or consumer entity id no
longer exists leaves the database state completely unchanged and terminates
with an ordinary `ErrorResult` value (the model of the reducer is a total
function: there is no fatal outcome, the host merely logs the returned
error). -/
theorem consume_missing_reference_noop (s : DbState) (args : ConsumeEntityArgs)
    (h : getEntity s args.consumedEntityId = none
       ∨ getEntity s args.consumerEntityId = none) :
    (ConsumeEntityReducer s args).2 = s
  ∧ ∃ msg, (ConsumeEntityReducer s args).1 = ReducerResult.error msg := by
  rcases h with h | h
  · simp only [ConsumeEntityReducer, h]
    exact ⟨trivial, _, rfl⟩
  · cases hcd : getEntity s args.consumedEntityId with
    | none =>
      simp only [ConsumeEntityReducer, hcd]
      exact ⟨trivial, _, rfl⟩
    | some ce =>
      simp only [ConsumeEntityReducer, hcd, h]
      exact ⟨trivial, _, rfl⟩

/-- C2 witness: consuming with both ids absent from an empty database is a
no-op that returns an error value. -/
theorem consume_missing_reference_noop_witness :
    (ConsumeEntityReducer ⟨0, [], [], [], []⟩ ⟨1, 2⟩).2 = ⟨0, [], [], [], []⟩
  ∧ ∃ msg, (ConsumeEntityReducer ⟨0, [], [], [], []⟩ ⟨1, 2⟩).1
      = ReducerResult.error msg :=
  consume_missing_reference_noop ⟨0, [], [], [], []⟩ ⟨1, 2⟩ (Or.inl rfl)

/-- C5 counterexample: for circles of mass 4 (radius 2) at positions (0,0)
and (5,0), 4 seconds after the split with 2 circles, the code returns a
force of magnitude 0.00625, half of the 0.0125 demanded by the claim
formula `(radiusSum − distance) * gravityMultiplier * selfCollisionSpeed /
circleCount`; `CalculateGravityPull` divides by 2 once more than the claim
states. -/
theorem gravity_pull_counterexample :
    CalculateGravityPull defaultConfiguration ⟨1, ⟨0, 0⟩, 4⟩ ⟨2, ⟨5, 0⟩, 4⟩ 4 2
      ≠ gravityPullSpec defaultConfiguration ⟨1, ⟨0, 0⟩, 4⟩ ⟨2, ⟨5, 0⟩, 4⟩ 4 2 := by
  rw [gravity_eval_code, gravity_eval_spec]
  intro h
  have hx := congrArg DbVector2.x h
  norm_num at hx

/-- C5 (amended): `CalculateGravityPull` returns exactly HALF the vector the
claim describes, in every branch (zero outside the gravity window, zero when
not yet beyond the radius sum, unit-separation for zero-distance pairs, and
the attractive `(radiusSum − distance) * gravityMultiplier *
selfCollisionSpeed / circleCount` formula otherwise), for any configuration
whose `selfCollisionSpeed` is the 0.05 the source hard-codes. -/
theorem gravity_pull_spec_halved (cfg : GameConfiguration) (a b : Entity)
    (t : ℝ) (n : ℕ) (hs : cfg.selfCollisionSpeed = 5 / 100) :
    CalculateGravityPull cfg a b t n = (gravityPullSpec cfg a b t n).div 2 := by
  have hcast : ((cfg.selfCollisionSpeed : ℚ) : ℝ) = 0.05 := by
    rw [hs]
    norm_num
  simp only [CalculateGravityPull, gravityPullSpec, hcast]
  split_ifs <;> first | rfl | rw [DbVector2.zero_div]

/-- C5 witness: the halving relation at the default configuration on a
concrete pair one second after the split. -/
theorem gravity_pull_spec_halved_witness :
    CalculateGravityPull defaultConfiguration ⟨1, ⟨0, 0⟩, 4⟩ ⟨2, ⟨5, 0⟩, 4⟩ 1 2
      = (gravityPullSpec defaultConfiguration ⟨1, ⟨0, 0⟩, 4⟩ ⟨2, ⟨5, 0⟩, 4⟩ 1 2).div 2 :=
  gravity_pull_spec_halved defaultConfiguration ⟨1, ⟨0, 0⟩, 4⟩ ⟨2, ⟨5, 0⟩, 4⟩ 1 2 rfl

/-- C4 counterexample: two same-player circles of mass 16 (radius 4) at
(0,0) and (3,0), before the gravity window opens (gravity force zero): the
separation contribution actually added to the movement vector of A is
(-0.0625, 0), a QUARTER of `(radiusSum − distance) * selfCollisionSpeed =
0.25`, not the claimed half (-0.125, 0): `CalculateSeparationForce` already
halves once and the reducer halves again. -/
theorem separation_contribution_counterexample :
    (pairForces defaultConfiguration ⟨1, ⟨0, 0⟩, 16⟩ ⟨2, ⟨3, 0⟩, 16⟩ 0 2).1
      ≠ separationContributionSpec defaultConfiguration ⟨1, ⟨0, 0⟩, 16⟩ ⟨2, ⟨3, 0⟩, 16⟩ := by
  have hp : (pairForces defaultConfiguration ⟨1, ⟨0, 0⟩, 16⟩ ⟨2, ⟨3, 0⟩, 16⟩ 0 2).1
      = ⟨-0.0625, 0⟩ := by
    simp only [pairForces, gravity_zero_early, separation_eval_code, DbVector2.zero_add]
    simp only [DbVector2.div]
    norm_num
  rw [hp, separation_eval_spec]
  intro h
  have hx := congrArg DbVector2.x h
  norm_num at hx

/-- C4 (amended): for a same-player pair whose gravity force is zero and
whose squared distance exceeds the 0.0001 degenerate-distance guard, the
separation contribution added to the per-tick movement vector of A is HALF the
claimed contribution (so a quarter of `(radiusSum − distance) *
selfCollisionSpeed`, zero above the overlap threshold exactly as claimed),
and the exact opposite vector is always added to B. -/
theorem separation_contribution_quartered (cfg : GameConfiguration)
    (a b : Entity) (t : ℝ) (n : ℕ)
    (hg : CalculateGravityPull cfg a b t n = DbVector2.zero)
    (hd : 0.0001 < (a.position.sub b.position).sqrMagnitude) :
    (pairForces cfg a b t n).1 = (separationContributionSpec cfg a b).div 2
  ∧ (pairForces cfg a b t n).2 = ((pairForces cfg a b t n).1).mul (-1) := by
  constructor
  · simp only [pairForces, hg, DbVector2.zero_add]
    congr 1
    simp only [CalculateSeparationForce, separationContributionSpec]
    rw [if_neg (not_le.mpr hd), if_neg (not_le.mpr hd), pow_two]
    split_ifs
    · rw [DbVector2.mul_mul]
    · rfl
  · simp only [pairForces]
    exact DbVector2.neg_add_halved _ _

/-- C4 witness: the quartering relation on the concrete mass-16 pair at
(0,0) and (3,0) at the default configuration, zero seconds after the split
(gravity not yet active). -/
theorem separation_contribution_quartered_witness :
    (pairForces defaultConfiguration ⟨1, ⟨0, 0⟩, 16⟩ ⟨2, ⟨3, 0⟩, 16⟩ 0 3).1
      = (separationContributionSpec defaultConfiguration ⟨1, ⟨0, 0⟩, 16⟩ ⟨2, ⟨3, 0⟩, 16⟩).div 2
  ∧ (pairForces defaultConfiguration ⟨1, ⟨0, 0⟩, 16⟩ ⟨2, ⟨3, 0⟩, 16⟩ 0 3).2
      = ((pairForces defaultConfiguration ⟨1, ⟨0, 0⟩, 16⟩ ⟨2, ⟨3, 0⟩, 16⟩ 0 3).1).mul (-1) :=
  separation_contribution_quartered defaultConfiguration ⟨1, ⟨0, 0⟩, 16⟩ ⟨2, ⟨3, 0⟩, 16⟩ 0 3
    (gravity_zero_early _ _ _)
    (by simp only [DbVector2.sub, DbVector2.sqrMagnitude]; norm_num)

/-- C1 counterexample: uint32 mass addition wraps.  Consuming a mass-1
entity into a consumer of mass 4294967295 leaves the consumer with mass
`(4294967295 + 1) % 2^32 = 0`, not `A.mass_before + B.mass_before =
4294967296` as the claim states. -/
theorem consume_overflow_counterexample :
    ¬ ((getEntity (ConsumeEntityReducer
          ⟨3, [⟨1, ⟨0, 0⟩, 4294967295⟩, ⟨2, ⟨0, 0⟩, 1⟩], [], [], []⟩ ⟨1, 2⟩).2 1).map
        Entity.mass = some (4294967295 + 1)) := by
  decide

/-- C1 (amended): when both the consumer and the consumed entity exist and
are distinct, `ConsumeEntity` succeeds, the consumer mass afterwards is
`(A.mass_before + B.mass_before) mod 2^32` — equal to the exact sum whenever
that sum is below `2^32` — and the consumed entity no longer exists. -/
theorem consume_mass_transfer_mod (s : DbState) (args : ConsumeEntityArgs)
    (A B : Entity)
    (hA : getEntity s args.consumerEntityId = some A)
    (hB : getEntity s args.consumedEntityId = some B)
    (hne : args.consumerEntityId ≠ args.consumedEntityId) :
    (ConsumeEntityReducer s args).1 = ReducerResult.success
  ∧ (getEntity (ConsumeEntityReducer s args).2 args.consumerEntityId).map Entity.mass
      = some ((A.mass + B.mass) % UINT32_MOD)
  ∧ getEntity (ConsumeEntityReducer s args).2 args.consumedEntityId = none
  ∧ (A.mass + B.mass < UINT32_MOD →
      (getEntity (ConsumeEntityReducer s args).2 args.consumerEntityId).map Entity.mass
        = some (A.mass + B.mass)) := by
  have hAid : A.entityId = args.consumerEntityId := getEntity_eq_some_id _ _ _ hA
  have hBid : B.entityId = args.consumedEntityId := getEntity_eq_some_id _ _ _ hB
  have hres : (ConsumeEntityReducer s args).1 = ReducerResult.success := by
    simp only [ConsumeEntityReducer, hA, hB]
  have hmain : (ConsumeEntityReducer s args).2
      = updateEntity (deleteEntity s B.entityId)
          { A with mass := (A.mass + B.mass) % UINT32_MOD } := by
    simp only [ConsumeEntityReducer, hA, hB]
  have hc : getEntity (ConsumeEntityReducer s args).2 args.consumerEntityId
      = some { A with mass := (A.mass + B.mass) % UINT32_MOD } := by
    rw [hmain]
    rw [show args.consumerEntityId
        = ({ A with mass := (A.mass + B.mass) % UINT32_MOD } : Entity).entityId
      from hAid.symm]
    rw [getEntity_updateEntity_self, getEntity_deleteEntity_other]
    · rw [show ({ A with mass := (A.mass + B.mass) % UINT32_MOD } : Entity).entityId
          = args.consumerEntityId from hAid, hA]
      rfl
    · show A.entityId ≠ B.entityId
      rw [hAid, hBid]
      exact hne
  have hd : getEntity (ConsumeEntityReducer s args).2 args.consumedEntityId = none := by
    rw [hmain]
    rw [getEntity_updateEntity_other]
    · rw [← hBid, getEntity_deleteEntity_self]
    · show args.consumedEntityId ≠ A.entityId
      rw [hAid]
      exact Ne.symm hne
  refine ⟨hres, ?_, hd, ?_⟩
  · rw [hc]
    rfl
  · intro hlt
    rw [hc]
    show some ((A.mass + B.mass) % UINT32_MOD) = some (A.mass + B.mass)
    rw [Nat.mod_eq_of_lt hlt]

/-- C1 witness: consuming a mass-50 entity into a mass-100 consumer yields
mass 150 (no overflow) and deletes the consumed entity. -/
theorem consume_mass_transfer_mod_witness :
    (ConsumeEntityReducer ⟨3, [⟨1, ⟨0, 0⟩, 100⟩, ⟨2, ⟨0, 0⟩, 50⟩], [], [], []⟩
        ⟨1, 2⟩).1 = ReducerResult.success
  ∧ (getEntity (ConsumeEntityReducer ⟨3, [⟨1, ⟨0, 0⟩, 100⟩, ⟨2, ⟨0, 0⟩, 50⟩], [], [], []⟩
        ⟨1, 2⟩).2 1).map Entity.mass = some ((100 + 50) % UINT32_MOD)
  ∧ getEntity (ConsumeEntityReducer ⟨3, [⟨1, ⟨0, 0⟩, 100⟩, ⟨2, ⟨0, 0⟩, 50⟩], [], [], []⟩
        ⟨1, 2⟩).2 2 = none
  ∧ (100 + 50 < UINT32_MOD →
      (getEntity (ConsumeEntityReducer ⟨3, [⟨1, ⟨0, 0⟩, 100⟩, ⟨2, ⟨0, 0⟩, 50⟩], [], [], []⟩
        ⟨1, 2⟩).2 1).map Entity.mass = some (100 + 50)) :=
  consume_mass_transfer_mod ⟨3, [⟨1, ⟨0, 0⟩, 100⟩, ⟨2, ⟨0, 0⟩, 50⟩], [], [], []⟩
    ⟨1, 2⟩ ⟨1, ⟨0, 0⟩, 100⟩ ⟨2, ⟨0, 0⟩, 50⟩ rfl rfl (by decide)

/-- C3: a circle of mass M split by the split loop of `PlayerSplitReducer`
produces a new entity of mass `halfMass = M / 2` (floor division) while the
original entity retains `M - halfMass`; the two masses sum to exactly M. -/
theorem player_split_mass_conservation (cfg : GameConfiguration) (pid ts : ℕ)
    (s : DbState) (count : ℕ) (c : Circle) (entity : Entity)
    (hE : getEntity s c.entityId = some entity)
    (helig : CanPlayerSplit cfg entity count = true)
    (hfresh : ∀ x ∈ s.entities, x.entityId ≠ s.nextEntityId) :
    (getEntity (splitCircleStep cfg pid ts ⟨s, count, false⟩ c).state
        s.nextEntityId).map Entity.mass = some (CalculateHalfMass entity.mass)
  ∧ (getEntity (splitCircleStep cfg pid ts ⟨s, count, false⟩ c).state
        c.entityId).map Entity.mass
      = some (entity.mass - CalculateHalfMass entity.mass)
  ∧ CalculateHalfMass entity.mass + (entity.mass - CalculateHalfMass entity.mass)
      = entity.mass := by
  have hcid : entity.entityId = c.entityId := getEntity_eq_some_id _ _ _ hE
  have hmem : entity ∈ s.entities := mem_of_getEntity_eq_some _ _ _ hE
  have hcne : c.entityId ≠ s.nextEntityId := by
    rw [← hcid]
    exact hfresh entity hmem
  have hstep : (splitCircleStep cfg pid ts ⟨s, count, false⟩ c).state
      = updateCircle
          (updateEntity
            (insertCircle
              (insertEntity s
                ⟨0, entity.position.add c.direction, CalculateHalfMass entity.mass⟩)
              ⟨s.nextEntityId, pid, ⟨0, 1⟩, 0, ts⟩)
            { entity with mass := entity.mass - CalculateHalfMass entity.mass })
          { c with lastSplitTime := ts } := by
    simp only [splitCircleStep, hE, helig, SpawnCircleAt, Bool.false_eq_true, if_false,
      if_true]
  refine ⟨?_, ?_, ?_⟩
  · rw [hstep, getEntity_updateCircle, getEntity_updateEntity_other, getEntity_insertCircle,
      getEntity_insertEntity_fresh s _ hfresh]
    · rfl
    · show s.nextEntityId ≠ entity.entityId
      rw [hcid]
      exact Ne.symm hcne
  · rw [hstep, getEntity_updateCircle]
    rw [show c.entityId
        = ({ entity with mass := entity.mass - CalculateHalfMass entity.mass } : Entity).entityId
      from hcid.symm]
    rw [getEntity_updateEntity_self, getEntity_insertCircle, getEntity_insertEntity_other]
    · rw [show ({ entity with mass := entity.mass - CalculateHalfMass entity.mass } : Entity).entityId
          = c.entityId from hcid, hE]
      rfl
    · show entity.entityId ≠ s.nextEntityId
      rw [hcid]
      exact hcne
  · unfold CalculateHalfMass
    omega

/-- C3 witness: splitting a mass-61 circle produces masses 30 and 31, which
sum to 61. -/
theorem player_split_mass_conservation_witness :
    (getEntity (splitCircleStep defaultConfiguration 7 1000000
        ⟨⟨20, [⟨10, ⟨50, 50⟩, 61⟩], [⟨10, 7, ⟨0, 1⟩, 0, 0⟩], [], []⟩, 1, false⟩
        ⟨10, 7, ⟨0, 1⟩, 0, 0⟩).state 20).map Entity.mass = some (CalculateHalfMass 61)
  ∧ (getEntity (splitCircleStep defaultConfiguration 7 1000000
        ⟨⟨20, [⟨10, ⟨50, 50⟩, 61⟩], [⟨10, 7, ⟨0, 1⟩, 0, 0⟩], [], []⟩, 1, false⟩
        ⟨10, 7, ⟨0, 1⟩, 0, 0⟩).state 10).map Entity.mass
      = some (61 - CalculateHalfMass 61)
  ∧ CalculateHalfMass 61 + (61 - CalculateHalfMass 61) = 61 :=
  player_split_mass_conservation defaultConfiguration 7 1000000
    ⟨20, [⟨10, ⟨50, 50⟩, 61⟩], [⟨10, 7, ⟨0, 1⟩, 0, 0⟩], [], []⟩ 1
    ⟨10, 7, ⟨0, 1⟩, 0, 0⟩ ⟨10, ⟨50, 50⟩, 61⟩ rfl (by decide) (by decide)

/-- C10: for an existing player below the circle cap, `PlayerSplitReducer`
always appends exactly one `CircleRecombine` event for that player at
`now + splitRecombineDelaySec` to the schedule — independently of whether
any circle was eligible to split. -/
theorem player_split_always_schedules_recombine (cfg : GameConfiguration)
    (s : DbState) (sender ts : ℕ) (p : Player)
    (hp : getPlayer s sender = some p)
    (hc : (getCirclesByPlayer s p.playerId).length < cfg.maxCirclesPerPlayer) :
    (PlayerSplitReducer cfg s sender ts).2.scheduled
      = s.scheduled
        ++ [⟨"CircleRecombine", p.playerId, ts + recombineDelayMicros cfg⟩] := by
  simp only [PlayerSplitReducer, hp]
  rw [if_neg (not_le.mpr hc)]
  simp only [scheduleReducer]
  rw [foldl_splitCircleStep_scheduled]

/-- C10 witness: a player whose only circle has mass 15 (not eligible to
split: 15 < 60) still gets a `CircleRecombine` event scheduled 5 seconds
(5000000 microseconds) after the invocation timestamp. -/
theorem player_split_always_schedules_recombine_witness :
    (PlayerSplitReducer defaultConfiguration
        ⟨100, [⟨10, ⟨1, 1⟩, 15⟩], [⟨10, 7, ⟨0, 1⟩, 0, 0⟩], [⟨42, 7⟩], []⟩
        42 1000000).2.scheduled
      = [] ++ [⟨"CircleRecombine", 7, 1000000 + recombineDelayMicros defaultConfiguration⟩] :=
  player_split_always_schedules_recombine defaultConfiguration
    ⟨100, [⟨10, ⟨1, 1⟩, 15⟩], [⟨10, 7, ⟨0, 1⟩, 0, 0⟩], [⟨42, 7⟩], []⟩
    42 1000000 ⟨42, 7⟩ rfl (by decide)

end Blackholio
